import Mathlib

/-!
Verification development for the flower-market backend
(src/server.js, main variant, and src/unnamed/part_000, simplified variant).

The moderation slice is embedded shallowly: the in-memory user map
(`usersDB = new Map()` / `users = {}`) becomes an association list keyed by
the user id; the Express/Telegraf handlers that read and write it become
pure Lean functions from the current store (plus the request data and an
abstract clock value) to a response value and the updated store.
Timestamps (`new Date()`) are abstracted to a `Nat` clock passed in by the
caller.  Fields of the loosely-typed JS records that a handler may leave
absent are `Option`s; boolean fields that JS reads through `|| false` are
plain `Bool`s created as `false`.  Outbound Telegram sends are best-effort
in the source (wrapped in try/catch with no state effect), so each handler
that attempts one takes a `notifyDelivered : Bool` flag standing for the
success of the send; faithfulness to the source means the returned
response and store never depend on it.  Google-OAuth-only fields
(googleTokens, googleInfo) are omitted: no modelled operation touches them.
-/

namespace Flower

/-- JS truthiness helper for string-or-absent request fields:
`a || b` where `a` is a possibly missing string (absent and the empty
string are both falsy). -/
def jsOr (a : Option String) (b : String) : String :=
  match a with
  | none => b
  | some s => if s = "" then b else s

/-- A contact entry as the handlers store it.  Manual/test entries carry a
single `phone`; Google-formatted entries carry `phones`/`emails` lists
(see `fetchGoogleContacts` and the `view_contacts` rendering, which reads
both shapes). -/
structure Contact where
  name : String
  phone : Option String
  phones : List String
  emails : List String
deriving Repr, DecidableEq

/-- A user record of src/server.js.  Mirrors the object literals built at
lines 826-836 (upload-contacts), 1316-1327 (bot.start) and the fields the
approve/reject/publish branches add (approvedAt/approvedBy at 1490-1492,
rejected/rejectedAt/rejectedBy at 1551-1553, postsCount/lastPostAt at
1154-1155).  Fields a record may lack in JS are `Option`; `postsCount` is
always read as `user.postsCount || 0`, so it is a `Nat` starting at 0. -/
structure User where
  id : String
  chatId : Option String
  username : Option String
  firstName : Option String
  lastName : Option String
  contacts : List Contact
  hasContacts : Bool
  approved : Bool
  rejected : Bool
  approvedAt : Option Nat
  approvedBy : Option String
  rejectedAt : Option Nat
  rejectedBy : Option String
  contactsImportedAt : Option Nat
  importSource : Option String
  postsCount : Nat
  lastPostAt : Option Nat
  createdAt : Option Nat
deriving Repr, DecidableEq

/-- The in-memory store `usersDB : Map<string, user>`, as an association
list in insertion order. -/
abbrev UsersDB := List (String × User)

/-- `usersDB.get(key)`. -/
def getUser : UsersDB → String → Option User
  | [], _ => none
  | (k, v) :: rest, key => if k = key then some v else getUser rest key

/-- `usersDB.set(key, value)`: replaces in place, appends when absent
(JS Map keeps insertion order and overwrites existing keys). -/
def setUser : UsersDB → String → User → UsersDB
  | [], key, v => [(key, v)]
  | (k, w) :: rest, key, v =>
      if k = key then (key, v) :: rest else (k, w) :: setUser rest key v

/-- `saveUser(user)` (server.js lines 140-150): stores the record under its
own `id` field.  The cache write and file write are persistence side
effects outside the store model. -/
def saveUser (db : UsersDB) (u : User) : UsersDB :=
  setUser db u.id u

/-- Runtime configuration relevant to moderation: `ADMIN_CHAT_ID` is the
chat that receives the decision buttons, and `CHANNEL_ID` the publish
target (server.js lines 38-39). -/
structure Config where
  adminChatId : String
  channelId : String
deriving Repr, DecidableEq

/-- Modelled from the spec: the configured operator identity set of
section 4.2 ("approve/reject callers must match a configured operator
identity set").  The only configured operator identity in the source is
`ADMIN_CHAT_ID`; src/server.js never compares a caller against it (the
callback_query handler at lines 1474-1709 reads `ctx.from` only to record
and display the decider), so membership in this set is a spec-level
notion, not a check the code performs. -/
def isOperator (cfg : Config) (caller : String) : Bool :=
  caller == cfg.adminChatId

/-- The spec's moderation states (section 4.2). -/
inductive ModState
  | unsubmitted
  | pending
  | approved
  | rejected
deriving Repr, DecidableEq

/-- The spec's `moderationState` as a view of the code's flags.  The code
stores no such enum; it keeps `approved` and `rejected` booleans plus
`hasContacts`.  Precedence follows the code's reads: every read path
(publish gate line 982, status route line 926, /status command line 1420,
user_info line 1663) consults `approved` first and never reads
`rejected`, so `approved` dominates; a user with contacts awaiting a
decision is the spec's `pending`. -/
def moderationState (u : User) : ModState :=
  if u.approved then .approved
  else if u.rejected then .rejected
  else if u.hasContacts then .pending
  else .unsubmitted

/-- Responses of POST /api/upload-contacts (server.js lines 796-905). -/
inductive UploadResult
  | missingUserId
  | missingContacts
  | tooFewContacts
  | ok (count : Nat) (approved : Bool)
deriving Repr, DecidableEq

/-- Whether an upload response is the 200 success. -/
def UploadResult.isOk : UploadResult → Bool
  | .ok _ _ => true
  | _ => false

/-- POST /api/upload-contacts (server.js lines 796-905).  Validates
userId, the contacts array and the minimum of 3 entries; finds or creates
the record; overwrites contacts, sets hasContacts, the import timestamp,
the source and the first name; saves; then attempts the admin
notification inside try/catch (lines 848-887) whose failure is logged and
swallowed, and answers 200 with the count and the current approved flag.
`contacts = none` stands for a missing or non-array `contacts` body
field. -/
def uploadContacts (db : UsersDB) (userId : Option String) (chatId : Option String)
    (contacts : Option (List Contact)) (firstName : Option String)
    (importSource : Option String) (now : Nat) (notifyDelivered : Bool) :
    UploadResult × UsersDB :=
  let fn := jsOr firstName "Пользователь"
  let src := jsOr importSource "manual"
  match userId with
  | none => (.missingUserId, db)
  | some uid =>
    if uid = "" then (.missingUserId, db)
    else
      match contacts with
      | none => (.missingContacts, db)
      | some cts =>
        if cts.length < 3 then (.tooFewContacts, db)
        else
          let user : User :=
            match getUser db uid with
            | some u => u
            | none =>
              { id := uid, chatId := some (jsOr chatId uid), username := none,
                firstName := some fn, lastName := none, contacts := [],
                hasContacts := false, approved := false, rejected := false,
                approvedAt := none, approvedBy := none,
                rejectedAt := none, rejectedBy := none,
                contactsImportedAt := none, importSource := none,
                postsCount := 0, lastPostAt := none, createdAt := some now }
          let user :=
            { user with
              contacts := cts, hasContacts := true,
              contactsImportedAt := some now, importSource := some src,
              firstName := if fn = "" then user.firstName else some fn }
          let db := saveUser db user
          let _adminNotifyOutcome := notifyDelivered
          (.ok cts.length user.approved, db)

/-- Responses the callback_query decision branches give through
`answerCbQuery` (server.js lines 1481-1584). -/
inductive CbResult
  | userNotFound
  | approvedOk
  | rejectedOk
deriving Repr, DecidableEq

/-- The `approve_user:` callback branch (server.js lines 1481-1540).  Any
caller reaching the handler is processed: there is no comparison of
`ctx.from` against a configured operator identity.  Sets the approved
flag and the decision metadata unconditionally (no guard on a previous
decision), saves, and answers success.  `operatorName` is
`ctx.from.username || ctx.from.first_name`; the user notification is
best-effort (try/catch, lines 1507-1538). -/
def approveUser (db : UsersDB) (userId : String) (operatorName : String)
    (now : Nat) (notifyDelivered : Bool) : CbResult × UsersDB :=
  match getUser db userId with
  | none => (.userNotFound, db)
  | some u =>
    let u := { u with approved := true, approvedAt := some now,
                      approvedBy := some operatorName }
    let db := saveUser db u
    let _userNotifyOutcome := notifyDelivered
    (.approvedOk, db)

/-- The `reject_user:` callback branch (server.js lines 1542-1584).  Same
shape as approve: no caller check, no guard on the current state (in
particular the approved flag is not consulted or cleared); sets the
rejected flag and metadata, saves, notifies the user best-effort, answers
success. -/
def rejectUser (db : UsersDB) (userId : String) (operatorName : String)
    (now : Nat) (notifyDelivered : Bool) : CbResult × UsersDB :=
  match getUser db userId with
  | none => (.userNotFound, db)
  | some u =>
    let u := { u with rejected := true, rejectedAt := some now,
                      rejectedBy := some operatorName }
    let db := saveUser db u
    let _userNotifyOutcome := notifyDelivered
    (.rejectedOk, db)

/-- The /start command (server.js lines 1305-1368): creates the record on
first contact with `hasContacts = false`, `approved = false`; on a repeat
start only refreshes username/firstName/lastName/chatId. -/
def botStart (db : UsersDB) (userId chatId : String) (username firstName lastName : Option String)
    (now : Nat) : UsersDB :=
  match getUser db userId with
  | none =>
    saveUser db
      { id := userId, chatId := some chatId, username := username,
        firstName := firstName, lastName := lastName, contacts := [],
        hasContacts := false, approved := false, rejected := false,
        approvedAt := none, approvedBy := none,
        rejectedAt := none, rejectedBy := none,
        contactsImportedAt := none, importSource := none,
        postsCount := 0, lastPostAt := none, createdAt := some now }
  | some u =>
    saveUser db
      { u with username := username, firstName := firstName,
               lastName := lastName, chatId := some chatId }

/-- Denial cases of the spec's Publication Gate contract, as the three
refusals of POST /api/publish-media-group (server.js lines 973-995). -/
inductive PublishDenied
  | userUnknown
  | notApproved
  | noContacts
deriving Repr, DecidableEq

/-- The spec's `authorizePublish(userId)` contract, embedded from the
check sequence of POST /api/publish-media-group (server.js lines
973-995): 404 when no record, 403 when not approved, 400 when no
contacts; otherwise the caller may proceed.  Pure: the handler writes
nothing between these checks. -/
def authorizePublish (db : UsersDB) (userId : String) : Except PublishDenied Unit :=
  match getUser db userId with
  | none => .error .userUnknown
  | some u =>
    if !u.approved then .error .notApproved
    else if !u.hasContacts then .error .noContacts
    else .ok ()

/-- HTTP-level outcomes of the check phase of
POST /api/publish-media-group, including the outer catch (server.js lines
1278-1284) that turns a thrown error into a 500. -/
inductive GateHttp
  | internalError
  | notFound
  | forbidden
  | badRequest
  | proceed
deriving Repr, DecidableEq

/-- The check phase of POST /api/publish-media-group (server.js lines
952-995 plus the catch at 1278-1284).  The body is destructured first and
the record fetched via `usersDB.get(userId.toString())` (line 973): when
the body lacks `userId`, `userId.toString()` throws a TypeError before
any check runs, the outer catch answers 500.  The store is returned
unchanged in every branch: this phase performs no write. -/
def publishGate (db : UsersDB) (userId : Option String) : GateHttp × UsersDB :=
  match userId with
  | none => (.internalError, db)
  | some uid =>
    match authorizePublish db uid with
    | .error .userUnknown => (.notFound, db)
    | .error .notApproved => (.forbidden, db)
    | .error .noContacts => (.badRequest, db)
    | .ok () => (.proceed, db)

/-- The caller-side mutation after a successful Telegram publish
(server.js lines 1154-1156): bumps postsCount, stamps lastPostAt,
saves. -/
def recordPublish (db : UsersDB) (userId : String) (now : Nat) : UsersDB :=
  match getUser db userId with
  | none => db
  | some u =>
    saveUser db { u with postsCount := u.postsCount + 1, lastPostAt := some now }

/-! ## Spec-side import validity (for comparison with the code)

The spec's input constraint for `importContacts` (section 4.1): at least 3
entries after de-duplication by the (name, first phone number) pair, and
every entry carries at least one non-empty phone number or email address.
These definitions follow the spec's words, to be compared with the
validation the handlers actually perform. -/

/-- Spec-side: the first phone number of an entry (the single `phone`
field when present, else the head of the `phones` list). -/
def specFirstPhone (c : Contact) : Option String :=
  match c.phone with
  | some p => some p
  | none => c.phones.head?

/-- Spec-side: de-duplication by the (name, first phone number) pair,
keeping first occurrences. -/
def specDedup (l : List Contact) : List Contact :=
  l.foldl
    (fun acc c =>
      if acc.any (fun d => d.name == c.name && specFirstPhone d == specFirstPhone c)
      then acc else acc ++ [c])
    []

/-- Spec-side: the entry carries at least one non-empty phone number or
email address. -/
def specEntryHasContactPoint (c : Contact) : Bool :=
  (match c.phone with | some p => p != "" | none => false)
    || c.phones.any (fun p => p != "")
    || c.emails.any (fun e => e != "")

/-- Spec-side: the whole input constraint of section 4.1 on a contact
list. -/
def specValidImportList (l : List Contact) : Bool :=
  decide (3 ≤ (specDedup l).length) && l.all specEntryHasContactPoint

end Flower

namespace FlowerV0

/-!
## The simplified variant src/unnamed/part_000

Its store is a plain object `users = {}`; records are replaced wholesale
on import (lines 177-187), never field-updated.  Modelled with the same
association-list store discipline and `Flower.Contact` entries.
-/

open Flower (Contact jsOr)

/-- A user record of the simplified variant, as the object literal of
part_000 lines 177-187 builds it (the test/google import routes build the
same shape; `isTest` omitted as unused by any modelled read). -/
structure User where
  id : String
  chatId : String
  firstName : String
  hasContacts : Bool
  contactsCount : Nat
  lastContactUpload : Nat
  approved : Bool
  contacts : List Contact
  importSource : String
deriving Repr, DecidableEq

/-- The store `users = {}` of part_000, keyed by userId. -/
abbrev UsersDB := List (String × User)

/-- `users[userId]` read. -/
def getUser : UsersDB → String → Option User
  | [], _ => none
  | (k, v) :: rest, key => if k = key then some v else getUser rest key

/-- `users[userId] = record` write. -/
def setUser : UsersDB → String → User → UsersDB
  | [], key, v => [(key, v)]
  | (k, w) :: rest, key, v =>
      if k = key then (key, v) :: rest else (k, w) :: setUser rest key v

/-- Responses of POST /api/upload-contacts in part_000 (lines 155-221).
The guard `!contacts || contacts.length < 3` answers the same 400 for a
missing array and for a short one. -/
inductive UploadResult
  | missingUserId
  | tooFewContacts
  | ok (count : Nat)
deriving Repr, DecidableEq

/-- POST /api/upload-contacts of part_000 (lines 155-221): after the
userId and minimum-3 guards it REPLACES `users[userId]` with a fresh
object whose `approved` field is the literal `false` (line 184),
regardless of any existing record; saves to disk; attempts the admin
notification inside try/catch (lines 192-206, failure logged and
swallowed); answers success. -/
def uploadContacts (db : UsersDB) (userId : Option String) (chatId : Option String)
    (contacts : Option (List Contact)) (firstName : Option String)
    (importSource : Option String) (now : Nat) (notifyDelivered : Bool) :
    UploadResult × UsersDB :=
  match userId with
  | none => (.missingUserId, db)
  | some uid =>
    if uid = "" then (.missingUserId, db)
    else
      match contacts with
      | none => (.tooFewContacts, db)
      | some cts =>
        if cts.length < 3 then (.tooFewContacts, db)
        else
          let user : User :=
            { id := uid, chatId := jsOr chatId uid,
              firstName := jsOr firstName "User", hasContacts := true,
              contactsCount := cts.length, lastContactUpload := now,
              approved := false, contacts := cts,
              importSource := jsOr importSource "unknown" }
          let db := setUser db uid user
          let _adminNotifyOutcome := notifyDelivered
          (.ok cts.length, db)

/-- The JSON body of GET /api/user/:userId/status in part_000 (lines
124-152).  The not-found branch answers `exists: false`; the found branch
omits the field (hence `Option Bool`, `none` = absent) and reports
`contactsCount || 0`. -/
structure StatusResp where
  success : Bool
  hasContacts : Bool
  approved : Bool
  userExists : Option Bool
  contactsCount : Option Nat
deriving Repr, DecidableEq

/-- GET /api/user/:userId/status of part_000 (lines 124-152). -/
def checkStatus (db : UsersDB) (userId : String) : StatusResp :=
  match getUser db userId with
  | none =>
    { success := true, hasContacts := false, approved := false,
      userExists := some false, contactsCount := none }
  | some u =>
    { success := true, hasContacts := u.hasContacts, approved := u.approved,
      userExists := none, contactsCount := some u.contactsCount }

end FlowerV0

namespace Flower

/-! ## Concrete example data -/

/-- Three distinct well-formed contacts, the smallest accepted import. -/
def ctsEx : List Contact :=
  [{ name := "A", phone := some "555111", phones := [], emails := [] },
   { name := "B", phone := some "555222", phones := [], emails := [] },
   { name := "C", phone := some "555333", phones := [], emails := [] }]

/-- A duplicate, contact-point-free list of raw length 3: one entry after
de-duplication by (name, first phone), and no entry has a phone or
email. -/
def badCts : List Contact :=
  [{ name := "A", phone := none, phones := [], emails := [] },
   { name := "A", phone := none, phones := [], emails := [] },
   { name := "A", phone := none, phones := [], emails := [] }]

/-- A user exactly as a first successful upload of `ctsEx` stores it:
contacts loaded, awaiting a decision. -/
def uPendingEx : User :=
  { id := "u1", chatId := some "c1", username := none, firstName := some "Ann",
    lastName := none, contacts := ctsEx, hasContacts := true, approved := false,
    rejected := false, approvedAt := none, approvedBy := none,
    rejectedAt := none, rejectedBy := none, contactsImportedAt := some 1,
    importSource := some "manual", postsCount := 0, lastPostAt := none,
    createdAt := some 1 }

/-- Store holding the single pending user. -/
def dbPending : UsersDB := [("u1", uPendingEx)]

/-- The pending user after an approve decision by "admin" at time 2. -/
def uApprovedEx : User :=
  { uPendingEx with approved := true, approvedAt := some 2,
                    approvedBy := some "admin" }

/-- Store holding the single approved user. -/
def dbApproved : UsersDB := [("u1", uApprovedEx)]

/-- The pending user after a reject decision by "admin" at time 2. -/
def uRejectedEx : User :=
  { uPendingEx with rejected := true, rejectedAt := some 2,
                    rejectedBy := some "admin" }

/-- Store holding the single rejected user. -/
def dbRejected : UsersDB := [("u1", uRejectedEx)]

/-- A configuration whose operator identity set is the admin chat. -/
def cfgEx : Config := { adminChatId := "admin_chat", channelId := "channel" }

/-- Store produced by a bare /start of user "u3": record exists, no
contacts, not approved. -/
def dbStartEx : UsersDB := botStart [] "u3" "c3" none (some "Bob") none 0

end Flower

namespace FlowerV0

/-- An already-approved user of the simplified variant. -/
def v0ApprovedEx : User :=
  { id := "u1", chatId := "c1", firstName := "Ann", hasContacts := true,
    contactsCount := 3, lastContactUpload := 1, approved := true,
    contacts := Flower.ctsEx, importSource := "manual" }

/-- Simplified-variant store holding the approved user. -/
def v0DbApproved : UsersDB := [("u1", v0ApprovedEx)]

end FlowerV0

namespace Flower

/-! ## Store lemmas -/

/-- Reading back the key just written. -/
theorem getUser_setUser_self (db : UsersDB) (k : String) (v : User) :
    getUser (setUser db k v) k = some v := by
  induction db with
  | nil => simp [setUser, getUser]
  | cons hd tl ih =>
    obtain ⟨k', w⟩ := hd
    by_cases h : k' = k
    · simp [setUser, getUser, h]
    · simp [setUser, getUser, h, ih]

/-- Reading a different key is unaffected by a write. -/
theorem getUser_setUser_other (db : UsersDB) (k k' : String) (v : User)
    (h : k' ≠ k) : getUser (setUser db k v) k' = getUser db k' := by
  induction db with
  | nil => simp [setUser, getUser, h, Ne.symm h]
  | cons hd tl ih =>
    obtain ⟨k₀, w⟩ := hd
    by_cases h0 : k₀ = k
    · subst h0
      simp [setUser, getUser, Ne.symm h]
    · by_cases h1 : k₀ = k'
      · subst h1
        simp [setUser, getUser, h0, h, Ne.symm h]
      · simp [setUser, getUser, h0, h1, ih]

/-- Two writes to the same key collapse to the second. -/
theorem setUser_setUser_self (db : UsersDB) (k : String) (v w : User) :
    setUser (setUser db k v) k w = setUser db k w := by
  induction db with
  | nil => simp [setUser]
  | cons hd tl ih =>
    obtain ⟨k₀, u₀⟩ := hd
    by_cases h : k₀ = k
    · simp [setUser, h]
    · simp [setUser, h, ih]

/-- The derived state is `approved` exactly when the stored flag is set:
the flag dominates every other field in `moderationState`. -/
theorem moderationState_approved_iff (u : User) :
    moderationState u = ModState.approved ↔ u.approved = true := by
  cases ha : u.approved <;> cases hr : u.rejected <;> cases hc : u.hasContacts <;>
    simp [moderationState, ha, hr, hc]

/-! ## Claims -/

/-- C10: a publish request whose body lacks `userId` never reaches the
404 user-unknown answer: `userId.toString()` throws first, the outer
catch at server.js lines 1278-1284 answers a generic 500, which is a
different response from the 404. -/
theorem C10_missing_userId_gives_500 (db : UsersDB) :
    (publishGate db none).1 = GateHttp.internalError ∧
    GateHttp.internalError ≠ GateHttp.notFound :=
  ⟨rfl, by decide⟩

/-- C3: the publish check phase answers user-unknown when no record
exists, answers not-approved (and in particular never success) whenever
the record's derived moderation state is not `approved`, and leaves the
store untouched. -/
theorem C3_publish_gate_correct (db : UsersDB) (uid : String) :
    (getUser db uid = none → authorizePublish db uid = .error .userUnknown) ∧
    (∀ u, getUser db uid = some u → moderationState u ≠ ModState.approved →
      authorizePublish db uid = .error .notApproved) ∧
    (∀ u, getUser db uid = some u → moderationState u ≠ ModState.approved →
      authorizePublish db uid ≠ .ok ()) ∧
    (publishGate db (some uid)).2 = db := by
  refine ⟨fun h => ?_, fun u hu hm => ?_, fun u hu hm => ?_, ?_⟩
  · simp [authorizePublish, h]
  · have ha : u.approved = false := by
      rcases Bool.eq_false_or_eq_true u.approved with h | h
      · exact absurd ((moderationState_approved_iff u).mpr h) hm
      · exact h
    simp [authorizePublish, hu, ha]
  · have ha : u.approved = false := by
      rcases Bool.eq_false_or_eq_true u.approved with h | h
      · exact absurd ((moderationState_approved_iff u).mpr h) hm
      · exact h
    simp [authorizePublish, hu, ha]
  · rcases h : authorizePublish db uid with e | r
    · cases e <;> simp [publishGate, h]
    · simp [publishGate, h]

/-- C3 witness: on the empty store the gate answers user-unknown, and on
the store with the pending (not yet approved) user it answers
not-approved. -/
theorem C3_publish_gate_correct_witness :
    authorizePublish ([] : UsersDB) "u1" = .error .userUnknown ∧
    authorizePublish dbPending "u1" = .error .notApproved :=
  ⟨(C3_publish_gate_correct [] "u1").1 (by decide),
   (C3_publish_gate_correct dbPending "u1").2.1 uPendingEx (by decide) (by decide)⟩

/-- C4: an upload of fewer than 3 contacts is refused with the
too-few-contacts error and the store is returned unchanged, in both
variants; in the simplified variant a subsequent status check for a user
id that had no record still reports `exists: false`. -/
theorem C4_too_few_contacts (db : UsersDB) (db0 : FlowerV0.UsersDB)
    (uid : String) (chat fn src : Option String) (cts : List Contact)
    (now : Nat) (nd : Bool) (huid : uid ≠ "") (hlen : cts.length < 3) :
    uploadContacts db (some uid) chat (some cts) fn src now nd =
      (.tooFewContacts, db) ∧
    FlowerV0.uploadContacts db0 (some uid) chat (some cts) fn src now nd =
      (.tooFewContacts, db0) ∧
    (FlowerV0.getUser db0 uid = none →
      (FlowerV0.checkStatus
        (FlowerV0.uploadContacts db0 (some uid) chat (some cts) fn src now nd).2
        uid).userExists = some false) := by
  refine ⟨?_, ?_, fun h0 => ?_⟩
  · simp [uploadContacts, huid, hlen]
  · simp [FlowerV0.uploadContacts, huid, hlen]
  · simp [FlowerV0.uploadContacts, huid, hlen, FlowerV0.checkStatus, h0]

/-- C4 witness: two contacts for the fresh id "u2" are refused in both
variants and the simplified variant then reports `exists: false`. -/
theorem C4_too_few_contacts_witness :
    uploadContacts ([] : UsersDB) (some "u2") none (some (ctsEx.take 2))
        none none 0 true = (.tooFewContacts, []) ∧
    FlowerV0.uploadContacts ([] : FlowerV0.UsersDB) (some "u2") none
        (some (ctsEx.take 2)) none none 0 true = (.tooFewContacts, []) ∧
    (FlowerV0.checkStatus
      (FlowerV0.uploadContacts ([] : FlowerV0.UsersDB) (some "u2") none
        (some (ctsEx.take 2)) none none 0 true).2 "u2").userExists = some false := by
  have h := C4_too_few_contacts [] [] "u2" none none none (ctsEx.take 2) 0 true
    (by decide) (by decide)
  exact ⟨h.1, h.2.1, h.2.2 (by decide)⟩

end Flower

namespace Flower

/-- C1 counterexample: "mallory" is not in the operator identity set, yet
an approve attempt by "mallory" on the pending user changes the store and
moves the user's moderation state from pending to approved; no Forbidden
refusal exists in the handler. -/
theorem C1_counterexample_no_forbidden :
    isOperator cfgEx "mallory" = false ∧
    (getUser dbPending "u1").map moderationState = some ModState.pending ∧
    (approveUser dbPending "u1" "mallory" 7 true).2 ≠ dbPending ∧
    (getUser (approveUser dbPending "u1" "mallory" 7 true).2 "u1").map
      moderationState = some ModState.approved := by
  refine ⟨by decide, by decide, ?_, by decide⟩
  decide

/-- C2 counterexample: the user is in the rejected state, yet an approve
decision moves it to approved — a transition out of `rejected`, which the
claim says cannot happen. -/
theorem C2_counterexample_rejected_not_terminal :
    (getUser dbRejected "u1").map moderationState = some ModState.rejected ∧
    (getUser (approveUser dbRejected "u1" "admin" 3 true).2 "u1").map
      moderationState = some ModState.approved := by
  decide

/-- C5 counterexample: /start creates a record without contacts, and an
approve decision on it succeeds without any contact check, reaching a
record with moderation state approved and hasContacts false. -/
theorem C5_counterexample_approved_without_contacts :
    (getUser (approveUser dbStartEx "u3" "admin" 5 true).2 "u3").map
      moderationState = some ModState.approved ∧
    (getUser (approveUser dbStartEx "u3" "admin" 5 true).2 "u3").map
      User.hasContacts = some false := by
  decide

/-- C6 counterexample: in the simplified variant (src/unnamed/part_000) a
successful re-import by an already-approved user replaces the record
wholesale and resets the approved flag to false. -/
theorem C6_counterexample_reimport_resets_approved :
    (FlowerV0.getUser FlowerV0.v0DbApproved "u1").map FlowerV0.User.approved
      = some true ∧
    (FlowerV0.uploadContacts FlowerV0.v0DbApproved (some "u1") none
      (some ctsEx) none none 9 true).1 = .ok 3 ∧
    (FlowerV0.getUser
      (FlowerV0.uploadContacts FlowerV0.v0DbApproved (some "u1") none
        (some ctsEx) none none 9 true).2 "u1").map FlowerV0.User.approved
      = some false := by
  decide

/-- C7 counterexample: approving the pending user twice, by operator
"op1" at time 1 and then by "op2" at time 2, retains the SECOND call's
operator and timestamp, not the first's. -/
theorem C7_counterexample_last_write_wins :
    (getUser (approveUser (approveUser dbPending "u1" "op1" 1 true).2
        "u1" "op2" 2 true).2 "u1").map User.approvedBy = some (some "op2") ∧
    some (some "op2") ≠ some (some ("op1" : String)) ∧
    (getUser (approveUser (approveUser dbPending "u1" "op1" 1 true).2
        "u1" "op2" 2 true).2 "u1").map User.approvedAt = some (some 2) := by
  refine ⟨by decide, by decide, by decide⟩

/-- C8 counterexample: a list of three identical entries with no phone
and no email fails both spec-side conditions (one entry after
de-duplication, no contact point anywhere) yet the upload succeeds. -/
theorem C8_counterexample_no_validation :
    specValidImportList badCts = false ∧
    (specDedup badCts).length = 1 ∧
    badCts.all specEntryHasContactPoint = false ∧
    (uploadContacts [] (some "u8") none (some badCts) none none 0
      true).1.isOk = true := by
  decide

end Flower

namespace Flower

/-- Characterization of the approve branch on a found record stored under
its own id. -/
theorem approveUser_found (db : UsersDB) (uid op : String) (t : Nat) (nd : Bool)
    (u : User) (hu : getUser db uid = some u) (hid : u.id = uid) :
    approveUser db uid op t nd =
      (.approvedOk, setUser db uid
        { u with approved := true, approvedAt := some t, approvedBy := some op }) := by
  simp only [approveUser, hu, saveUser]
  rw [hid]

/-- Characterization of the reject branch on a found record stored under
its own id. -/
theorem rejectUser_found (db : UsersDB) (uid op : String) (t : Nat) (nd : Bool)
    (u : User) (hu : getUser db uid = some u) (hid : u.id = uid) :
    rejectUser db uid op t nd =
      (.rejectedOk, setUser db uid
        { u with rejected := true, rejectedAt := some t, rejectedBy := some op }) := by
  simp only [rejectUser, hu, saveUser]
  rw [hid]

/-- Characterization of a successful upload for an existing record stored
under its own id. -/
theorem uploadContacts_existing (db : UsersDB) (uid : String)
    (chat fn src : Option String) (cts : List Contact) (now : Nat) (nd : Bool)
    (u : User) (hu : getUser db uid = some u) (hid : u.id = uid)
    (huid : uid ≠ "") (hlen : ¬ cts.length < 3) :
    uploadContacts db (some uid) chat (some cts) fn src now nd =
      (.ok cts.length u.approved,
       setUser db uid
         { u with contacts := cts, hasContacts := true,
                  contactsImportedAt := some now,
                  importSource := some (jsOr src "manual"),
                  firstName := if jsOr fn "Пользователь" = "" then u.firstName
                               else some (jsOr fn "Пользователь") }) := by
  simp only [uploadContacts, huid, hlen, hu, saveUser, if_neg, if_false]
  rw [hid]

end Flower

namespace Flower

/-- C1 amended: the decision handler performs no caller-identity check:
even a caller outside the configured operator identity set has its
approve attempt processed — the call answers success and the user's
moderation state changes to approved (no Forbidden refusal exists); the
only protection is that the decision buttons are delivered to the admin
chat alone. -/
theorem C1_amended_no_auth_check (cfg : Config) (db : UsersDB)
    (uid caller : String) (now : Nat) (nd : Bool) (u : User)
    (hu : getUser db uid = some u) (hid : u.id = uid)
    (hop : isOperator cfg caller = false) :
    (approveUser db uid caller now nd).1 = CbResult.approvedOk ∧
    getUser (approveUser db uid caller now nd).2 uid =
      some { u with approved := true, approvedAt := some now,
                    approvedBy := some caller } ∧
    moderationState { u with approved := true, approvedAt := some now,
                             approvedBy := some caller } = ModState.approved := by
  have h := approveUser_found db uid caller now nd u hu hid
  refine ⟨by rw [h], ?_, ?_⟩
  · rw [h]
    exact getUser_setUser_self db uid _
  · simp [moderationState]

/-- C1 witness: the non-operator "mallory" successfully approves the
pending user. -/
theorem C1_amended_no_auth_check_witness :
    (approveUser dbPending "u1" "mallory" 7 true).1 = CbResult.approvedOk ∧
    getUser (approveUser dbPending "u1" "mallory" 7 true).2 "u1" =
      some { uPendingEx with approved := true, approvedAt := some 7,
                             approvedBy := some "mallory" } ∧
    moderationState { uPendingEx with approved := true, approvedAt := some 7,
                                      approvedBy := some "mallory" } =
      ModState.approved :=
  C1_amended_no_auth_check cfgEx dbPending "u1" "mallory" 7 true uPendingEx
    (by decide) (by decide) (by decide)

/-- C2 amended: the approved flag (and hence the derived approved state)
does survive a later reject — but the reject is NOT a no-op: it answers
success, sets the rejection flag and metadata, and stores a record
different from the one before; symmetrically (see the counterexample)
approve moves a user out of rejected, so neither decided state is
terminal in the record. -/
theorem C2_amended_decided_not_terminal (db : UsersDB) (uid op : String)
    (now : Nat) (nd : Bool) (u : User)
    (hu : getUser db uid = some u) (hid : u.id = uid)
    (happ : moderationState u = ModState.approved) (hrej : u.rejected = false) :
    (rejectUser db uid op now nd).1 = CbResult.rejectedOk ∧
    getUser (rejectUser db uid op now nd).2 uid =
      some { u with rejected := true, rejectedAt := some now,
                    rejectedBy := some op } ∧
    moderationState { u with rejected := true, rejectedAt := some now,
                             rejectedBy := some op } = ModState.approved ∧
    ({ u with rejected := true, rejectedAt := some now,
              rejectedBy := some op } : User) ≠ u := by
  have ha : u.approved = true := (moderationState_approved_iff u).mp happ
  have h := rejectUser_found db uid op now nd u hu hid
  refine ⟨by rw [h], ?_, ?_, ?_⟩
  · rw [h]
    exact getUser_setUser_self db uid _
  · simp [moderationState, ha]
  · intro he
    have h2 := congrArg User.rejected he
    simp [hrej] at h2

/-- C2 witness: rejecting the already-approved user answers success,
keeps the derived state approved, but mutates the record. -/
theorem C2_amended_decided_not_terminal_witness :
    (rejectUser dbApproved "u1" "admin2" 4 true).1 = CbResult.rejectedOk ∧
    getUser (rejectUser dbApproved "u1" "admin2" 4 true).2 "u1" =
      some { uApprovedEx with rejected := true, rejectedAt := some 4,
                              rejectedBy := some "admin2" } ∧
    moderationState { uApprovedEx with rejected := true, rejectedAt := some 4,
                                       rejectedBy := some "admin2" } =
      ModState.approved ∧
    ({ uApprovedEx with rejected := true, rejectedAt := some 4,
                        rejectedBy := some "admin2" } : User) ≠ uApprovedEx :=
  C2_amended_decided_not_terminal dbApproved "u1" "admin2" 4 true uApprovedEx
    (by decide) (by decide) (by decide) (by decide)

/-- C7 amended: a repeated approve is accepted (success, not an error)
and composing two approves equals the single approve with the SECOND
call's operator and timestamp — the later call overwrites, rather than
retains, the first transition's decision metadata; with an identical
operator and timestamp this specializes to idempotence. -/
theorem C7_amended_repeat_approve (db : UsersDB) (uid op1 op2 : String)
    (t1 t2 : Nat) (nd1 nd2 : Bool) (u : User)
    (hu : getUser db uid = some u) (hid : u.id = uid) :
    approveUser (approveUser db uid op1 t1 nd1).2 uid op2 t2 nd2 =
      approveUser db uid op2 t2 nd2 ∧
    (approveUser (approveUser db uid op1 t1 nd1).2 uid op2 t2 nd2).1 =
      CbResult.approvedOk := by
  have h1 := approveUser_found db uid op1 t1 nd1 u hu hid
  have hget : getUser (approveUser db uid op1 t1 nd1).2 uid =
      some { u with approved := true, approvedAt := some t1,
                    approvedBy := some op1 } := by
    rw [h1]
    exact getUser_setUser_self db uid _
  have h2 := approveUser_found (approveUser db uid op1 t1 nd1).2 uid op2 t2 nd2
    { u with approved := true, approvedAt := some t1, approvedBy := some op1 }
    hget hid
  have h3 := approveUser_found db uid op2 t2 nd2 u hu hid
  refine ⟨?_, by rw [h2]⟩
  rw [h2, h3, h1, setUser_setUser_self]

/-- C7 witness: the double approve of the pending user collapses to the
single second approve and answers success. -/
theorem C7_amended_repeat_approve_witness :
    approveUser (approveUser dbPending "u1" "op1" 1 true).2 "u1" "op2" 2 true =
      approveUser dbPending "u1" "op2" 2 true ∧
    (approveUser (approveUser dbPending "u1" "op1" 1 true).2 "u1" "op2" 2
      true).1 = CbResult.approvedOk :=
  C7_amended_repeat_approve dbPending "u1" "op1" "op2" 1 2 true true uPendingEx
    (by decide) (by decide)

end Flower

namespace FlowerV0

/-- Reading back the key just written (simplified-variant store). -/
theorem v0_getUser_setUser_self (db : UsersDB) (k : String) (v : User) :
    getUser (setUser db k v) k = some v := by
  induction db with
  | nil => simp [setUser, getUser]
  | cons hd tl ih =>
    obtain ⟨k', w⟩ := hd
    by_cases h : k' = k
    · simp [setUser, getUser, h]
    · simp [setUser, getUser, h, ih]

end FlowerV0

namespace Flower

/-- Characterization of a successful upload when no record exists yet: a
fresh record is created and stored under the supplied id. -/
theorem uploadContacts_fresh (db : UsersDB) (uid : String)
    (chat fn src : Option String) (cts : List Contact) (now : Nat) (nd : Bool)
    (hu : getUser db uid = none) (huid : uid ≠ "") (hlen : ¬ cts.length < 3) :
    uploadContacts db (some uid) chat (some cts) fn src now nd =
      (.ok cts.length false,
       setUser db uid
         { id := uid, chatId := some (jsOr chat uid), username := none,
           firstName := some (jsOr fn "Пользователь"), lastName := none,
           contacts := cts, hasContacts := true, approved := false,
           rejected := false, approvedAt := none, approvedBy := none,
           rejectedAt := none, rejectedBy := none,
           contactsImportedAt := some now,
           importSource := some (jsOr src "manual"),
           postsCount := 0, lastPostAt := none, createdAt := some now }) := by
  simp only [uploadContacts, huid, hlen, hu, saveUser, if_neg, if_false, ite_self]

/-- Characterization of the post-publish statistics update on a found
record stored under its own id. -/
theorem recordPublish_found (db : UsersDB) (uid : String) (now : Nat)
    (u : User) (hu : getUser db uid = some u) (hid : u.id = uid) :
    recordPublish db uid now =
      setUser db uid
        { u with postsCount := u.postsCount + 1, lastPostAt := some now } := by
  simp only [recordPublish, hu, saveUser]
  rw [hid]

/-- C5 amended: the manual upload path does establish the contact half of
the invariant — a successful upload stores hasContacts true with at least
3 contacts — and the decision and publish operations leave the contacts
fields untouched; but (see the counterexample) approve performs no
contact check, so `approved` does NOT imply `hasContacts`: a /start-only
user can be approved without contacts, and only the publish gate's
defensive NoContacts check guards that hole. -/
theorem C5_amended_contact_invariants (db : UsersDB) (uid op : String)
    (now : Nat) (nd : Bool) (u : User)
    (hu : getUser db uid = some u) (hid : u.id = uid) (huid : uid ≠ "") :
    (∀ chat fn src cts, 3 ≤ cts.length → ∀ u',
      getUser (uploadContacts db (some uid) chat (some cts) fn src now nd).2 uid
        = some u' → u'.hasContacts = true ∧ 3 ≤ u'.contacts.length) ∧
    (∀ u', getUser (approveUser db uid op now nd).2 uid = some u' →
      u'.hasContacts = u.hasContacts ∧ u'.contacts = u.contacts) ∧
    (∀ u', getUser (rejectUser db uid op now nd).2 uid = some u' →
      u'.hasContacts = u.hasContacts ∧ u'.contacts = u.contacts) ∧
    (∀ u', getUser (recordPublish db uid now) uid = some u' →
      u'.hasContacts = u.hasContacts ∧ u'.contacts = u.contacts) := by
  refine ⟨fun chat fn src cts hlen u' hu' => ?_, fun u' hu' => ?_,
          fun u' hu' => ?_, fun u' hu' => ?_⟩
  · rw [uploadContacts_existing db uid chat fn src cts now nd u hu hid huid
      (Nat.not_lt.mpr hlen), getUser_setUser_self] at hu'
    injection hu' with h
    subst h
    exact ⟨rfl, hlen⟩
  · rw [approveUser_found db uid op now nd u hu hid,
      getUser_setUser_self] at hu'
    injection hu' with h
    subst h
    exact ⟨rfl, rfl⟩
  · rw [rejectUser_found db uid op now nd u hu hid,
      getUser_setUser_self] at hu'
    injection hu' with h
    subst h
    exact ⟨rfl, rfl⟩
  · rw [recordPublish_found db uid now u hu hid, getUser_setUser_self] at hu'
    injection hu' with h
    subst h
    exact ⟨rfl, rfl⟩

/-- C5 witness: approving the pending user leaves its contacts fields
exactly as they were. -/
theorem C5_amended_contact_invariants_witness :
    ({ uPendingEx with approved := true, approvedAt := some 3,
                       approvedBy := some "admin" } : User).hasContacts
        = uPendingEx.hasContacts ∧
    ({ uPendingEx with approved := true, approvedAt := some 3,
                       approvedBy := some "admin" } : User).contacts
        = uPendingEx.contacts :=
  (C5_amended_contact_invariants dbPending "u1" "admin" 3 true uPendingEx
    (by decide) (by decide) (by decide)).2.1 _ (by decide)

/-- C6 amended: in the main variant (src/server.js) a successful
re-import leaves every decision field unchanged; in the simplified
variant (src/unnamed/part_000, see the counterexample) the import
replaces the whole record and resets `approved` to false. -/
theorem C6_amended_reimport_keeps_decision (db : UsersDB) (uid : String)
    (chat fn src : Option String) (cts : List Contact) (now : Nat) (nd : Bool)
    (u : User) (hu : getUser db uid = some u) (hid : u.id = uid)
    (huid : uid ≠ "") (hlen : 3 ≤ cts.length) :
    ∃ u', getUser (uploadContacts db (some uid) chat (some cts) fn src now
        nd).2 uid = some u' ∧
      u'.approved = u.approved ∧ u'.rejected = u.rejected ∧
      u'.approvedAt = u.approvedAt ∧ u'.approvedBy = u.approvedBy ∧
      u'.rejectedAt = u.rejectedAt ∧ u'.rejectedBy = u.rejectedBy := by
  rw [uploadContacts_existing db uid chat fn src cts now nd u hu hid huid
    (Nat.not_lt.mpr hlen)]
  exact ⟨_, getUser_setUser_self db uid _, rfl, rfl, rfl, rfl, rfl, rfl⟩

/-- C6 witness: re-importing for the already-approved user of the main
variant keeps the approved flag. -/
theorem C6_amended_reimport_keeps_decision_witness :
    (getUser (uploadContacts dbApproved (some "u1") none (some ctsEx) none
      none 9 true).2 "u1").map User.approved = some true := by
  obtain ⟨u', h1, h2, -, -, -, -, -⟩ :=
    C6_amended_reimport_keeps_decision dbApproved "u1" none none none ctsEx
      9 true uApprovedEx (by decide) (by decide) (by decide) (by decide)
  rw [h1]
  simp only [Option.map_some']
  rw [h2]
  decide

/-- C8 amended: the upload endpoint validates nothing about the content
of the list — no de-duplication, no per-entry phone/email requirement:
given a present, non-empty userId and a contacts array, it succeeds
exactly when the raw array length is at least 3. -/
theorem C8_amended_only_length_checked (db : UsersDB) (uid : String)
    (chat fn src : Option String) (cts : List Contact) (now : Nat) (nd : Bool)
    (huid : uid ≠ "") :
    (uploadContacts db (some uid) chat (some cts) fn src now nd).1.isOk = true
      ↔ 3 ≤ cts.length := by
  by_cases h : cts.length < 3
  · simp only [uploadContacts, huid, h, if_neg, if_true, if_false, ite_self]
    simp [UploadResult.isOk]
    omega
  · simp only [uploadContacts, huid, h, if_neg, if_true, if_false, ite_self]
    simp [UploadResult.isOk]
    omega

/-- C8 witness: the three-entry list is accepted. -/
theorem C8_amended_only_length_checked_witness :
    (uploadContacts ([] : UsersDB) (some "u1") none (some ctsEx) none none 0
      true).1.isOk = true :=
  (C8_amended_only_length_checked [] "u1" none none none ctsEx 0 true
    (by decide)).mpr (by decide)

/-- C9: the admin-notification outcome is invisible in the state and the
response: a valid upload produces the same answer and the same store
whether the outbound send succeeds or fails, the answer is success, and
the stored record has hasContacts true — in both variants. -/
theorem C9_notification_failure_no_rollback (db : UsersDB)
    (db0 : FlowerV0.UsersDB) (uid : String) (chat fn src : Option String)
    (cts : List Contact) (now : Nat) (huid : uid ≠ "") (hlen : 3 ≤ cts.length)
    (hwf : ∀ u, getUser db uid = some u → u.id = uid) :
    (uploadContacts db (some uid) chat (some cts) fn src now true =
      uploadContacts db (some uid) chat (some cts) fn src now false) ∧
    (∀ nd, (uploadContacts db (some uid) chat (some cts) fn src now
      nd).1.isOk = true) ∧
    (∀ nd, ∃ u', getUser (uploadContacts db (some uid) chat (some cts) fn src
      now nd).2 uid = some u' ∧ u'.hasContacts = true) ∧
    (FlowerV0.uploadContacts db0 (some uid) chat (some cts) fn src now true =
      FlowerV0.uploadContacts db0 (some uid) chat (some cts) fn src now false) ∧
    (∀ nd, ∃ u', FlowerV0.getUser (FlowerV0.uploadContacts db0 (some uid) chat
      (some cts) fn src now nd).2 uid = some u' ∧ u'.hasContacts = true) := by
  have hlen' : ¬ cts.length < 3 := Nat.not_lt.mpr hlen
  refine ⟨rfl, fun nd => ?_, fun nd => ?_, rfl, fun nd => ?_⟩
  · rcases hcase : getUser db uid with - | u
    · rw [uploadContacts_fresh db uid chat fn src cts now nd hcase huid hlen']
      rfl
    · rw [uploadContacts_existing db uid chat fn src cts now nd u hcase
        (hwf u hcase) huid hlen']
      rfl
  · rcases hcase : getUser db uid with - | u
    · rw [uploadContacts_fresh db uid chat fn src cts now nd hcase huid hlen']
      exact ⟨_, getUser_setUser_self db uid _, rfl⟩
    · rw [uploadContacts_existing db uid chat fn src cts now nd u hcase
        (hwf u hcase) huid hlen']
      exact ⟨_, getUser_setUser_self db uid _, rfl⟩
  · simp only [FlowerV0.uploadContacts, huid, hlen', if_neg, if_false]
    exact ⟨_, FlowerV0.v0_getUser_setUser_self db0 uid _, rfl⟩

/-- C9 witness: on the empty store, the responses with and without a
delivered notification coincide and the upload succeeds. -/
theorem C9_notification_failure_no_rollback_witness :
    (uploadContacts ([] : UsersDB) (some "u1") none (some ctsEx) none none 0
        true =
      uploadContacts ([] : UsersDB) (some "u1") none (some ctsEx) none none 0
        false) ∧
    (uploadContacts ([] : UsersDB) (some "u1") none (some ctsEx) none none 0
      true).1.isOk = true := by
  have h := C9_notification_failure_no_rollback [] [] "u1" none none none
    ctsEx 0 (by decide) (by decide) (fun u hu => by simp [getUser] at hu)
  exact ⟨h.1, h.2.1 true⟩

end Flower
